import Mathlib

/-!
Verification development for the pyvoa repository.

The repository module `src.error` (file `pyvoa/error.py`) defines the
console-banner helper `blinking_centered_text` and the shallow `Coa*`
exception hierarchy.  The definitions below are a shallow embedding of that
module: each Lean definition mirrors the corresponding Python function or
class initializer.  Console output is modelled as the list of strings written
to stdout; the result of `os.popen('stty size').read()` is passed in
explicitly as the `stty` argument, and `sys.exit` is modelled as an `Outcome`.

The geolocation layer (`pyvoa/geo.py`: `GeoManager.to_standard`,
`GeoRegion.get_countries_from_region`) is not part of the sources at hand,
only its caller notebook is; those definitions are modelled from the spec and
are marked as such in their doc comments.
-/

namespace Pyvoa

/-- Association-list lookup, modelling a Python `dict` built from the listed
key/value pairs (`d[k]` / `d.get(k)` return the value of the matching key). -/
def lookup? {α : Type} : List (String × α) → String → Option α
  | [], _ => none
  | (k, v) :: t, x => if x = k then some v else lookup? t x

/-- `str.lower()` restricted to its ASCII action (all keys involved are
ASCII), mapped over the character list so that it evaluates in the kernel. -/
def pyLower (s : String) : String := String.mk (s.data.map Char.toLower)

/-- Helper for `pySplit`: walks the character list accumulating the current
word, breaking at whitespace and dropping empty chunks. -/
def splitWsAux : List Char → List Char → List String
  | [], acc => if acc.isEmpty then [] else [String.mk acc.reverse]
  | c :: cs, acc =>
    if c.isWhitespace then
      if acc.isEmpty then splitWsAux cs []
      else String.mk acc.reverse :: splitWsAux cs []
    else splitWsAux cs (c :: acc)

/-- Python `str.split()` with no argument: split on runs of whitespace,
ignoring leading and trailing whitespace. -/
def pySplit (s : String) : List String := splitWsAux s.data []

/-- Decimal digits to their value; `none` if empty or a non-digit occurs. -/
def decDigits? (ds : List Char) : Option Nat :=
  if ds.isEmpty then none
  else if ds.all (·.isDigit) then
    some (ds.foldl (fun a c => 10 * a + (c.toNat - 48)) 0)
  else none

/-- Python `int(s)` on a string: surrounding whitespace is allowed, then an
optional sign and decimal digits; anything else raises, modelled as `none`. -/
def pyInt? (s : String) : Option Int :=
  let t := ((s.data.dropWhile Char.isWhitespace).reverse.dropWhile
      Char.isWhitespace).reverse
  match t with
  | '-' :: ds => (decDigits? ds).map (fun n => -(n : Int))
  | '+' :: ds => (decDigits? ds).map (fun n => (n : Int))
  | ds => (decDigits? ds).map (fun n => (n : Int))

/-- Python `str.center(width)` with space fill, as implemented by CPython:
unchanged when `width <= len(s)`, otherwise left margin
`marg / 2 + (marg & width & 1)` and the rest on the right. -/
def pyCenter (s : String) (w : Int) : String :=
  if w ≤ (s.length : Int) then s
  else
    let wn := w.toNat
    let marg := wn - s.length
    let left := marg / 2 + ((marg &&& wn) &&& 1)
    String.mk (List.replicate left ' ') ++ s ++
      String.mk (List.replicate (marg - left) ' ')

/-- The foreground colour table of `blinking_centered_text` (error.py):
`{'black':'30','red':'31','green':'32','yellow':'33','blue':'34',
'magenta':'35','cyan':'36','white':'37','default':'39'}`. -/
def color_codes : List (String × String) :=
  [("black", "30"), ("red", "31"), ("green", "32"), ("yellow", "33"),
   ("blue", "34"), ("magenta", "35"), ("cyan", "36"), ("white", "37"),
   ("default", "39")]

/-- The background table: `{name: str(int(code) + 10) for name, code in
color_codes.items()}`. -/
def bg_codes : List (String × String) :=
  color_codes.map (fun p => (p.1, toString ((pyInt? p.2).getD 0 + 10)))

/-- `color_codes.get(text_color.lower(), color_codes['white'])`. -/
def text_code (text_color : String) : String :=
  (lookup? color_codes (pyLower text_color)).getD
    ((lookup? color_codes "white").getD "")

/-- `bg_codes.get(bg_color.lower(), bg_codes['red'])`. -/
def bg_code (bg_color : String) : String :=
  (lookup? bg_codes (pyLower bg_color)).getD
    ((lookup? bg_codes "red").getD "")

/-- The ANSI start sequence: `\033[5;{text_code};{bg_code}m` when `blinking`
is truthy, else `\033[;{text_code};{bg_code}m`.  Call sites pass the ints
`0`/`1` for `blinking`, so truthiness is `blinking ≠ 0`. -/
def ansi_start (blinking : Nat) (text_color bg_color : String) : String :=
  if blinking ≠ 0 then
    "\x1b[5;" ++ text_code text_color ++ ";" ++ bg_code bg_color ++ "m"
  else
    "\x1b[;" ++ text_code text_color ++ ";" ++ bg_code bg_color ++ "m"

/-- `ansi_reset = "\033[0m"`. -/
def ansi_reset : String := "\x1b[0m"

/-- The columns value obtained from the `stty size` output: the code unpacks
`rows, columns = os.popen('stty size','r').read().split()` and then runs
`columns = int(columns)`, all inside `try: ... except: pass`.  `none` means
some step raised and the bare `except` swallowed it. -/
def sttyCols (stty : String) : Option Int :=
  match pySplit stty with
  | [_, c] => pyInt? c
  | _ => none

/-- `blinking_centered_text(typemsg, message, blinking, text_color,
bg_color)` from error.py, with the raw `stty size` output as the environment
argument.  Result: the list of strings written to `sys.stdout`. -/
def blinking_centered_text (typemsg message : String) (blinking : Nat)
    (text_color bg_color : String) (stty : String) : List String :=
  let tm := match sttyCols stty with
    | some n => pyCenter typemsg n
    | none => typemsg
  let ms := match sttyCols stty with
    | some n => pyCenter message n
    | none => message
  [ansi_start blinking text_color bg_color ++ tm ++ ansi_reset ++ "\n",
   ansi_start blinking text_color bg_color ++ ms ++ ansi_reset ++ "\n"]

/-- The exception classes of error.py together with the builtin classes they
inherit from. -/
inductive PyClass
  | BaseException | Exception | OSErr | LookupError | IndexError
  | TypeError | ConnectionError | SystemExit
  | CoaInfo | CoaDBInfo | CoaWarning | CoaError
  | CoaNoData | CoaWhereError | CoaTypeError | CoaLookupError
  | CoaNotManagedError | CoaDbError | CoaConnectionError
deriving DecidableEq, Fintype

/-- The direct base classes, read off the `class` statements of error.py
(builtin bases as in CPython). -/
def bases : PyClass → List PyClass
  | .BaseException => []
  | .Exception => [.BaseException]
  | .OSErr => [.Exception]
  | .LookupError => [.Exception]
  | .IndexError => [.LookupError]
  | .TypeError => [.Exception]
  | .ConnectionError => [.OSErr]
  | .SystemExit => [.BaseException]
  | .CoaInfo => [.Exception]
  | .CoaDBInfo => [.Exception]
  | .CoaWarning => [.Exception]
  | .CoaError => [.Exception]
  | .CoaNoData => [.CoaError, .IndexError]
  | .CoaWhereError => [.CoaError, .IndexError]
  | .CoaTypeError => [.CoaError, .TypeError]
  | .CoaLookupError => [.CoaError, .LookupError]
  | .CoaNotManagedError => [.CoaError]
  | .CoaDbError => [.CoaError]
  | .CoaConnectionError => [.CoaError]

/-- Reflexive-transitive reachability through `bases`, bounded by a fuel that
exceeds the depth of the (acyclic) hierarchy. -/
def subclassFuel : Nat → PyClass → PyClass → Bool
  | 0, _, _ => false
  | n + 1, c, d => c = d || (bases c).any (fun b => subclassFuel n b d)

/-- `issubclass(c, d)`: the hierarchy has depth at most 5, so fuel 8 is
exact. -/
def subclass (c d : PyClass) : Bool := subclassFuel 8 c d

/-- `except H:` catches a raised instance of class `c` iff `c` is a subclass
of `H`. -/
def catches (handler c : PyClass) : Bool := subclass c handler

/-- What a class initializer does after printing: return normally or
terminate the process (`sys.exit(code)` raising `SystemExit`). -/
inductive Outcome
  | returns
  | exits (code : Nat)
deriving DecidableEq

/-- The observable effect of running a class initializer: the lines written
to stdout and whether control returns. -/
structure InitEffect where
  out : List String
  outcome : Outcome
deriving DecidableEq

/-- The banner printed by `CoaError.__init__` and by every `CoaError`
subclass initializer:
`blinking_centered_text('PYCOA Error !', message, blinking=1,
text_color='white', bg_color='red')`. -/
def coaErrorBanner (stty message : String) : List String :=
  blinking_centered_text "PYCOA Error !" message 1 "white" "red" stty

/-- `CoaError.__init__`: print the error banner, then `sys.exit(0)`. -/
def coaErrorInit (stty message : String) : InitEffect :=
  ⟨coaErrorBanner stty message, .exits 0⟩

/-- A `CoaError` subclass initializer: print the error banner, construct and
discard builtin-exception instances (no observable effect), then construct
`CoaError(message)` — which runs `CoaError.__init__`, printing the banner a
second time and exiting, so control never returns. -/
def coaSubErrorInit (stty message : String) : InitEffect :=
  let inner := coaErrorInit stty message
  ⟨coaErrorBanner stty message ++ inner.out, inner.outcome⟩

/-- The effect of `C(message)` for each class `C` of error.py.  The builtin
classes construct silently and return.  `CoaInfo`, `CoaDBInfo` and
`CoaWarning` print their banner, evaluate `Exception(message)` (constructed
and discarded) and return; `CoaError` and its subclasses are as above. -/
def initEffect : PyClass → (stty message : String) → InitEffect
  | .CoaInfo, stty, m =>
    ⟨blinking_centered_text "PYCOA Info !" m 0 "white" "magenta" stty,
      .returns⟩
  | .CoaDBInfo, stty, m =>
    ⟨blinking_centered_text "PYCOA Info !" m 0 "white" "blue" stty, .returns⟩
  | .CoaWarning, stty, m =>
    ⟨blinking_centered_text "PYCOA Warning !" m 0 "white" "magenta" stty,
      .returns⟩
  | .CoaError, stty, m => coaErrorInit stty m
  | .CoaNoData, stty, m => coaSubErrorInit stty m
  | .CoaWhereError, stty, m => coaSubErrorInit stty m
  | .CoaTypeError, stty, m => coaSubErrorInit stty m
  | .CoaLookupError, stty, m => coaSubErrorInit stty m
  | .CoaNotManagedError, stty, m => coaSubErrorInit stty m
  | .CoaDbError, stty, m => coaSubErrorInit stty m
  | .CoaConnectionError, stty, m => coaSubErrorInit stty m
  | _, _, _ => ⟨[], .returns⟩

/-- What the caller of `raise C(message)` observes: the lines printed during
construction, and either the exception of class `C` propagating, or — when
the initializer called `sys.exit` — a `SystemExit` propagating instead. -/
inductive RaiseEffect
  | raised (c : PyClass)
  | systemExit (code : Nat)
deriving DecidableEq

/-- Semantics of `raise C(message)`. -/
def pyRaise (c : PyClass) (stty message : String) :
    List String × RaiseEffect :=
  let e := initEffect c stty message
  match e.outcome with
  | .returns => (e.out, .raised c)
  | .exits n => (e.out, .systemExit n)

/-- Modelled from the spec: the canonical country record of the geographic
reference table — "the single authoritative identifier set (name, ISO2, ISO3,
numeric code) a dataset name resolves to" (glossary).  The geo module itself
(`pyvoa/geo.py`) is not among the sources; only its caller notebook is. -/
structure CountryRecord where
  name : String
  iso2 : String
  iso3 : String
  num : Nat
deriving DecidableEq

/-- Modelled from the spec: "the user-selected output representation
(e.g., name vs. ISO3) for resolved identifiers" (glossary). -/
inductive Standard
  | name
  | iso2
  | iso3
deriving DecidableEq

/-- The preferred standard form of a canonical record under a naming scheme:
"each canonical country has exactly one preferred standard form per naming
scheme" (spec, data model). -/
def stdForm : Standard → CountryRecord → String
  | .name, r => r.name
  | .iso2, r => r.iso2
  | .iso3, r => r.iso3

/-- Modelled from the spec: "a geographic reference table mapping country
identifiers (name variants, ISO2/ISO3 codes, numeric codes) to a canonical
record", a "read-only lookup structure populated once at initialization".
Variants are stored lowercased; entries follow the repository's example
notebook (france, esp, england, ...). -/
def countryTable : List (CountryRecord × List String) :=
  [(⟨"France", "FR", "FRA", 250⟩, ["france", "fr", "fra"]),
   (⟨"Italy", "IT", "ITA", 380⟩, ["italy", "it", "ita"]),
   (⟨"Germany", "DE", "DEU", 276⟩, ["germany", "de", "deu", "berlin"]),
   (⟨"Spain", "ES", "ESP", 724⟩, ["spain", "es", "esp"]),
   (⟨"United Kingdom", "GB", "GBR", 826⟩,
     ["united kingdom", "uk", "gb", "gbr", "england"]),
   (⟨"United States", "US", "USA", 840⟩, ["united states", "us", "usa"]),
   (⟨"Russia", "RU", "RUS", 643⟩, ["russia", "ru", "rus"]),
   (⟨"Tunisia", "TN", "TUN", 788⟩, ["tunisia", "tn", "tun"]),
   (⟨"Egypt", "EG", "EGY", 818⟩, ["egypt", "eg", "egy"])]

/-- Modelled from the spec: the lookup step of name resolution — a "lookup
/ normalization convenience layer over a static reference table"; matching
is performed on the lowercased input so that casing variants resolve alike. -/
def findRecord? (s : String) : Option CountryRecord :=
  (countryTable.find? (fun e => e.2.contains (pyLower s))).map (·.1)

/-- Modelled from the spec: `GeoManager.to_standard` without region
interpretation — "resolve a name to a standard"; "unknown names raise the
documented error kind", the location error `CoaWhereError` of the `CoaError`
family. -/
def to_standard (std : Standard) (s : String) : Except PyClass String :=
  match findRecord? s with
  | some r => .ok (stdForm std r)
  | none => .error .CoaWhereError

/-- Modelled from the spec: the region membership lists — "named region →
set of member country codes", "static reference data, not derived at
runtime".  Region names are stored lowercased, members as ISO3 codes. -/
def regionTable : List (String × List String) :=
  [("european union",
    ["AUT", "BEL", "BGR", "HRV", "CYP", "CZE", "DNK", "EST", "FIN", "FRA",
     "DEU", "GRC", "HUN", "IRL", "ITA", "LVA", "LTU", "LUX", "MLT", "NLD",
     "POL", "PRT", "ROU", "SVK", "SVN", "ESP", "SWE"]),
   ("south america",
    ["ARG", "BOL", "BRA", "CHL", "COL", "ECU", "GUY", "PER", "PRY", "SUR",
     "URY", "VEN"])]

/-- Modelled from the spec: `GeoRegion.get_countries_from_region` — "expand
a region to its member countries"; "region expansion returns a
deterministic, deduplicated set of member country codes". -/
def get_countries_from_region (r : String) : List String :=
  ((lookup? regionTable (pyLower r)).getD []).dedup

/-- The five documented error-category classes of error.py. -/
def errorCategories : List PyClass :=
  [.CoaWhereError, .CoaDbError, .CoaLookupError, .CoaNoData,
   .CoaNotManagedError]

/-- `CoaError` and its subclasses: the classes whose construction reaches
`sys.exit`. -/
def fatalClasses : List PyClass :=
  [.CoaError, .CoaNoData, .CoaWhereError, .CoaTypeError, .CoaLookupError,
   .CoaNotManagedError, .CoaDbError, .CoaConnectionError]

/-- C1: constructing the informational variants (`CoaInfo`, `CoaDBInfo`) or
the warning variant (`CoaWarning`) prints its two-line banner and returns
control to the caller, whereas constructing the fatal `CoaError` prints its
banner and then terminates the process via `sys.exit`. -/
theorem coa_info_warning_continue_error_exits (stty msg : String) :
    (initEffect .CoaInfo stty msg).outcome = .returns ∧
    (initEffect .CoaDBInfo stty msg).outcome = .returns ∧
    (initEffect .CoaWarning stty msg).outcome = .returns ∧
    (initEffect .CoaError stty msg).outcome = .exits 0 ∧
    (initEffect .CoaInfo stty msg).out.length = 2 ∧
    (initEffect .CoaDBInfo stty msg).out.length = 2 ∧
    (initEffect .CoaWarning stty msg).out.length = 2 ∧
    (initEffect .CoaError stty msg).out.length = 2 :=
  ⟨rfl, rfl, rfl, rfl, rfl, rfl, rfl, rfl⟩

/-- C2: evaluation of the code at the failing input.  `raise
CoaWhereError(message)` (an unknown location, as in the repository's own
notebook, which wraps `to_standard('European Union')` in `try ... except
CoaError`) never propagates the typed exception: the initializer constructs
`CoaError(message)`, whose initializer calls `sys.exit(0)`, so a
`SystemExit` propagates instead (after four banner lines: the subclass
banner and the inner `CoaError` banner), and an `except CoaError` handler
does not catch `SystemExit`. -/
theorem coaWhereError_construction_exits_systemExit :
    (pyRaise .CoaWhereError "24 80\n" "European Union is not a country").2
      = .systemExit 0 ∧
    (pyRaise .CoaWhereError "24 80\n" "European Union is not a country").2
      ≠ .raised .CoaWhereError ∧
    catches .CoaError .SystemExit = false ∧
    (pyRaise .CoaWhereError "24 80\n"
      "European Union is not a country").1.length = 4 :=
  ⟨rfl, by decide, by decide, rfl⟩

/-- C3: the hierarchy provides a distinct typed exception class for each
documented error category — `CoaWhereError` (location/unknown input),
`CoaDbError` and `CoaLookupError` (database lookup), `CoaNoData`
(missing data / invalid cut), `CoaNotManagedError` (unmanaged failure) —
all of them in the `CoaError` family, pairwise different and with neither
of any two subsuming the other. -/
theorem coa_error_categories_distinct_classes :
    (errorCategories.all fun c => subclass c .CoaError) = true ∧
    errorCategories.Pairwise
      (fun a b => a ≠ b ∧ subclass a b = false ∧ subclass b a = false) := by
  decide

/-- C4: when the terminal width is obtained from `stty size`,
`blinking_centered_text` writes exactly two lines to stdout — the
type-message line followed by the message line — each centered to that
width, each preceded by the ANSI start sequence built from the selected
text and background colour codes (blink attribute `5` when `blinking` is
truthy) and followed by the reset sequence `ESC[0m`. -/
theorem blinking_centered_text_two_centered_lines (typemsg message : String)
    (blinking : Nat) (tc bc stty : String) (n : Int)
    (h : sttyCols stty = some n) :
    blinking_centered_text typemsg message blinking tc bc stty =
      [ansi_start blinking tc bc ++ pyCenter typemsg n ++ ansi_reset ++ "\n",
       ansi_start blinking tc bc ++ pyCenter message n ++ ansi_reset
         ++ "\n"] := by
  simp only [blinking_centered_text, h]

/-- Witness for C4 at a concrete terminal of 80 columns. -/
theorem blinking_centered_text_two_centered_lines_witness :
    sttyCols "24 80\n" = some 80 ∧
    blinking_centered_text "PYCOA Info !" "hello" 0 "white" "magenta"
        "24 80\n" =
      [ansi_start 0 "white" "magenta" ++ pyCenter "PYCOA Info !" 80
         ++ ansi_reset ++ "\n",
       ansi_start 0 "white" "magenta" ++ pyCenter "hello" 80 ++ ansi_reset
         ++ "\n"] :=
  ⟨by decide,
   blinking_centered_text_two_centered_lines _ _ _ _ _ _ _ (by decide)⟩

/-- C5: resolving a name that is not a known country (without region
interpretation) yields the documented error kind: the location error
`CoaWhereError`, a member of the `CoaError` family. -/
theorem to_standard_unknown_raises_CoaWhereError (std : Standard)
    (s : String) (h : findRecord? s = none) :
    to_standard std s = .error .CoaWhereError ∧
    subclass .CoaWhereError .CoaError = true :=
  ⟨by simp [to_standard, h], by decide⟩

/-- Witness for C5: `'European Union'` is not a country. -/
theorem to_standard_unknown_raises_CoaWhereError_witness :
    findRecord? "European Union" = none ∧
    (to_standard .name "European Union" = .error .CoaWhereError ∧
     subclass .CoaWhereError .CoaError = true) :=
  ⟨by decide, to_standard_unknown_raises_CoaWhereError .name "European Union"
    (by decide)⟩

/-- C6: for a known region, expansion returns a deduplicated list with
exactly the member country codes recorded in the static region table; the
result is a function of the table entry alone, hence deterministic across
calls. -/
theorem get_countries_from_region_dedup_static (r : String)
    (ms : List String) (h : lookup? regionTable (pyLower r) = some ms) :
    (get_countries_from_region r).Nodup ∧
    (∀ c, c ∈ get_countries_from_region r ↔ c ∈ ms) ∧
    get_countries_from_region r = ms.dedup := by
  refine ⟨?_, ?_, ?_⟩ <;>
    simp [get_countries_from_region, h, List.nodup_dedup, List.mem_dedup]

/-- Witness for C6 at the region `'South America'`. -/
theorem get_countries_from_region_dedup_static_witness :
    lookup? regionTable (pyLower "South America") =
      some ["ARG", "BOL", "BRA", "CHL", "COL", "ECU", "GUY", "PER", "PRY",
            "SUR", "URY", "VEN"] ∧
    ((get_countries_from_region "South America").Nodup ∧
     (∀ c, c ∈ get_countries_from_region "South America" ↔
        c ∈ ["ARG", "BOL", "BRA", "CHL", "COL", "ECU", "GUY", "PER", "PRY",
             "SUR", "URY", "VEN"]) ∧
     get_countries_from_region "South America" =
       (["ARG", "BOL", "BRA", "CHL", "COL", "ECU", "GUY", "PER", "PRY",
         "SUR", "URY", "VEN"] : List String).dedup) :=
  ⟨by decide, get_countries_from_region_dedup_static "South America" _
    (by decide)⟩

/-- C7: resolution is casing-insensitive — any input with the same
lowercasing as a known identifier resolves to the same canonical record,
so every casing variant of a known name or code agrees with its canonical
form under every standard. -/
theorem to_standard_casing_invariant (std : Standard) (s v : String)
    (r : CountryRecord) (h1 : findRecord? s = some r)
    (h2 : pyLower v = pyLower s) :
    to_standard std v = .ok (stdForm std r) ∧
    to_standard std v = to_standard std s := by
  have hv : findRecord? v = findRecord? s := by
    unfold findRecord?; rw [h2]
  exact ⟨by simp [to_standard, hv, h1], by simp [to_standard, hv]⟩

/-- Witness for C7: `'FrAnCe'` resolves like `'france'`, to the ISO3 form
`'FRA'` of the canonical France record. -/
theorem to_standard_casing_invariant_witness :
    findRecord? "france" = some ⟨"France", "FR", "FRA", 250⟩ ∧
    pyLower "FrAnCe" = pyLower "france" ∧
    (to_standard .iso3 "FrAnCe" =
       .ok (stdForm .iso3 ⟨"France", "FR", "FRA", 250⟩) ∧
     to_standard .iso3 "FrAnCe" = to_standard .iso3 "france") :=
  ⟨by decide, by decide,
   to_standard_casing_invariant .iso3 "france" "FrAnCe" _ (by decide)
     (by decide)⟩

/-- C8: `CoaInfo`, `CoaDBInfo` and `CoaWarning` derive directly from
`Exception`, not from `CoaError`; consequently an `except CoaError` handler
catches a raised class exactly when it is `CoaError` or one of its
subclasses (`CoaNoData`, `CoaWhereError`, `CoaTypeError`, `CoaLookupError`,
`CoaNotManagedError`, `CoaDbError`, `CoaConnectionError`), and never the
informational or warning variants. -/
theorem coaError_handler_scope :
    bases .CoaInfo = [.Exception] ∧ bases .CoaDBInfo = [.Exception] ∧
    bases .CoaWarning = [.Exception] ∧
    (∀ c : PyClass, catches .CoaError c = fatalClasses.contains c) := by
  decide

/-- C9, counterexample: the fallback for an unknown colour name is not the
table's `'default'` entry.  An unknown text colour falls back to the
`'white'` entry (`'37'`, not `'39'`), and an unknown background colour
falls back to the `'red'` entry (`'41'`, not `'49'`). -/
theorem colour_fallback_not_default_entry :
    lookup? color_codes "default" = some "39" ∧
    lookup? color_codes "turquoise" = none ∧
    text_code "turquoise" = "37" ∧ text_code "turquoise" ≠ "39" ∧
    lookup? bg_codes "default" = some "49" ∧
    lookup? bg_codes "turquoise" = none ∧
    bg_code "turquoise" = "41" ∧ bg_code "turquoise" ≠ "49" := by
  decide

/-- C9, amended: `blinking_centered_text` is total on its string inputs —
when reading the terminal size fails the text is written uncentered, and an
unknown text or background colour name falls back via dictionary `get` to
the `'white'` entry (`'37'`) respectively the `'red'` entry (`'41'`), so no
combination of string arguments makes the function raise. -/
theorem blinking_centered_text_total_with_fallbacks
    (typemsg message tc bc stty : String) (blinking : Nat)
    (h1 : sttyCols stty = none)
    (h2 : lookup? color_codes (pyLower tc) = none)
    (h3 : lookup? bg_codes (pyLower bc) = none) :
    text_code tc = "37" ∧ bg_code bc = "41" ∧
    blinking_centered_text typemsg message blinking tc bc stty =
      [ansi_start blinking tc bc ++ typemsg ++ ansi_reset ++ "\n",
       ansi_start blinking tc bc ++ message ++ ansi_reset ++ "\n"] := by
  refine ⟨?_, ?_, ?_⟩
  · simp only [text_code, h2, Option.getD_none]; decide
  · simp only [bg_code, h3, Option.getD_none]; decide
  · simp only [blinking_centered_text, h1]

/-- Witness for the amended C9: unreadable terminal size and the unknown
colour `'turquoise'`. -/
theorem blinking_centered_text_total_with_fallbacks_witness :
    (sttyCols "garbage" = none ∧
     lookup? color_codes (pyLower "turquoise") = none ∧
     lookup? bg_codes (pyLower "turquoise") = none) ∧
    (text_code "turquoise" = "37" ∧ bg_code "turquoise" = "41" ∧
     blinking_centered_text "a" "b" 0 "turquoise" "turquoise" "garbage" =
       [ansi_start 0 "turquoise" "turquoise" ++ "a" ++ ansi_reset ++ "\n",
        ansi_start 0 "turquoise" "turquoise" ++ "b" ++ ansi_reset
          ++ "\n"]) :=
  ⟨⟨by decide, by decide, by decide⟩,
   blinking_centered_text_total_with_fallbacks "a" "b" "turquoise"
     "turquoise" "garbage" 0 (by decide) (by decide) (by decide)⟩

/-- C10: for every named colour in the colour table, the background ANSI
code is the decimal string of the foreground code plus 10, computed as
`str(int(code) + 10)` — and this is the value `bg_code` uses. -/
theorem bg_code_is_foreground_plus_ten (n c : String)
    (h : (n, c) ∈ color_codes) :
    pyInt? c ≠ none ∧
    lookup? bg_codes n = some (toString ((pyInt? c).getD 0 + 10)) ∧
    bg_code n = toString ((pyInt? c).getD 0 + 10) := by
  have all : ∀ p ∈ color_codes,
      pyInt? p.2 ≠ none ∧
      lookup? bg_codes p.1 = some (toString ((pyInt? p.2).getD 0 + 10)) ∧
      bg_code p.1 = toString ((pyInt? p.2).getD 0 + 10) := by decide
  exact all (n, c) h

/-- Witness for C10 at `('black', '30')`, whose background code is `'40'`. -/
theorem bg_code_is_foreground_plus_ten_witness :
    ("black", "30") ∈ color_codes ∧
    (pyInt? "30" ≠ none ∧
     lookup? bg_codes "black" = some (toString ((pyInt? "30").getD 0 + 10)) ∧
     bg_code "black" = toString ((pyInt? "30").getD 0 + 10)) :=
  ⟨by decide, bg_code_is_foreground_plus_ten "black" "30" (by decide)⟩

end Pyvoa
